import Mathlib

/-!
Shallow embedding of the workout-tracker backend (src/backend: main.py,
models.py, schemas.py) in Lean 4.

The database is modelled as lists of rows, one list per SQLAlchemy table
(users, categories, exercises, workout_records), together with the
auto-increment counters for the integer primary keys.  Each HTTP handler in
main.py becomes a pure function on this state: a handler that can raise
`HTTPException` returns `Except ApiError _`; a handler that only writes
returns the new state.  Python `float` columns (weight, volume) are modelled
as `ℚ`; Python `int` as `ℤ` or `Nat` for ids.  SQLAlchemy
`query(...).filter(...).first()` becomes `List.find?`, `.all()` becomes
`List.filter`, `db.delete(row)` on a fetched row becomes `List.eraseP`
(remove the first matching row), and in-place mutation of a fetched row
becomes an update of the first matching row.
-/

/-- A row of the `users` table (models.py, class User). -/
structure User where
  id : Nat
  email : String
  hashed_password : String
deriving DecidableEq, Repr

/-- A row of the `categories` table (models.py, class Category). -/
structure Category where
  id : Nat
  name : String
  user_id : Nat
deriving DecidableEq, Repr

/-- A row of the `exercises` table (models.py, class Exercise);
`category_id` is nullable. -/
structure Exercise where
  id : Nat
  name : String
  category_id : Option Nat
  user_id : Nat
deriving DecidableEq, Repr

/-- A row of the `workout_records` table (models.py, class Record).
`weight` and `volume` are `Float` columns, modelled as `ℚ`. -/
structure Record where
  id : Nat
  date : String
  exercise_id : Nat
  exercise_name : String
  weight : ℚ
  reps : ℤ
  sets : ℤ
  memo : Option String
  volume : ℚ
  user_id : Nat
deriving DecidableEq, Repr

/-- The persistent state: the four tables plus the auto-increment counters
of their integer primary keys. -/
structure DB where
  users : List User
  categories : List Category
  exercises : List Exercise
  records : List Record
  nextUserId : Nat
  nextCategoryId : Nat
  nextExerciseId : Nat
  nextRecordId : Nat
deriving DecidableEq, Repr

/-- The empty database (no rows, counters at 1). -/
def emptyDB : DB :=
  { users := [], categories := [], exercises := [], records := []
    nextUserId := 1, nextCategoryId := 1, nextExerciseId := 1, nextRecordId := 1 }

/-- The `HTTPException`s raised by the handlers in main.py:
404 not-found and 400 bad-request, each with its detail message. -/
inductive ApiError where
  | notFound (detail : String)
  | badRequest (detail : String)
deriving DecidableEq, Repr

/-- Replace the first element satisfying `p` by `f` of it; models in-place
mutation of the single row fetched by `.first()`. -/
def updateFirst (p : α → Bool) (f : α → α) : List α → List α
  | [] => []
  | x :: xs => if p x then f x :: xs else x :: updateFirst p f xs

/-- main.py line 63-66: the six default exercise names seeded at registration. -/
def default_exercises : List String :=
  ["ベンチプレス", "スクワット", "デッドリフト",
   "懸垂", "ショルダープレス", "バーベルロー"]

/-- main.py register, lines 62-70: add one default exercise per name
(`models.Exercise(name=name, user_id=new_user.id)`, so `category_id` is the
column default, null). -/
def seedDefaultExercises (db : DB) (uid : Nat) : DB :=
  default_exercises.foldl
    (fun d name =>
      { d with
        exercises := d.exercises ++
          [{ id := d.nextExerciseId, name := name, category_id := none, user_id := uid }]
        nextExerciseId := d.nextExerciseId + 1 })
    db

/-- main.py `register` (lines 44-72) as its sequence of committed states.
The handler calls `db.commit()` twice: once after inserting the user row
(line 59) and once after adding the six default exercises (line 70).  The
returned list holds the database as of each commit, in order. -/
def registerCommits (db : DB) (email hashed_password : String) : Except ApiError (List DB) :=
  match db.users.find? (fun u => u.email == email) with
  | some _ => .error (.badRequest "このメールアドレスは既に使用されています")
  | none =>
    let uid := db.nextUserId
    let db1 : DB :=
      { db with
        users := db.users ++ [{ id := uid, email := email, hashed_password := hashed_password }]
        nextUserId := uid + 1 }
    .ok [db1, seedDefaultExercises db1 uid]

/-- main.py `register`: the final state after the handler returns (the state
as of the second commit of `registerCommits`). -/
def register (db : DB) (email hashed_password : String) : Except ApiError DB :=
  match db.users.find? (fun u => u.email == email) with
  | some _ => .error (.badRequest "このメールアドレスは既に使用されています")
  | none =>
    let uid := db.nextUserId
    let db1 : DB :=
      { db with
        users := db.users ++ [{ id := uid, email := email, hashed_password := hashed_password }]
        nextUserId := uid + 1 }
    .ok (seedDefaultExercises db1 uid)

/-- main.py `get_categories` (line 100-106): the caller's categories. -/
def get_categories (db : DB) (uid : Nat) : List Category :=
  db.categories.filter (fun c => c.user_id == uid)

/-- main.py `create_category` (lines 109-120). -/
def create_category (db : DB) (uid : Nat) (name : String) : DB × Category :=
  let c : Category := { id := db.nextCategoryId, name := name, user_id := uid }
  ({ db with categories := db.categories ++ [c], nextCategoryId := db.nextCategoryId + 1 }, c)

/-- main.py `delete_category` (lines 123-145): fetch the category by id and
owner (404 if absent); null out `category_id` on every exercise with
`category_id == category_id` — note line 139 filters by category id only,
with no owner filter — then delete the category row; one commit. -/
def delete_category (db : DB) (uid : Nat) (category_id : Nat) : Except ApiError DB :=
  match db.categories.find? (fun c => c.id == category_id && c.user_id == uid) with
  | none => .error (.notFound "カテゴリが見つかりません")
  | some _ =>
    .ok { db with
          exercises := db.exercises.map (fun e =>
            if e.category_id == some category_id then { e with category_id := none } else e)
          categories := db.categories.eraseP (fun c => c.id == category_id && c.user_id == uid) }

/-- main.py `get_exercises` (lines 149-155): the caller's exercises. -/
def get_exercises (db : DB) (uid : Nat) : List Exercise :=
  db.exercises.filter (fun e => e.user_id == uid)

/-- main.py `create_exercise` (lines 158-173): inserts with the request's
`category_id` as given — no existence or ownership check on it. -/
def create_exercise (db : DB) (uid : Nat) (name : String) (category_id : Option Nat) :
    DB × Exercise :=
  let e : Exercise :=
    { id := db.nextExerciseId, name := name, category_id := category_id, user_id := uid }
  ({ db with exercises := db.exercises ++ [e], nextExerciseId := db.nextExerciseId + 1 }, e)

/-- main.py `update_exercise` (lines 176-195): fetch by id and owner (404 if
absent), then set `category_id` to the request's value — again with no
existence or ownership check on the new category id. -/
def update_exercise (db : DB) (uid exercise_id : Nat) (category_id : Option Nat) :
    Except ApiError (DB × Exercise) :=
  match db.exercises.find? (fun e => e.id == exercise_id && e.user_id == uid) with
  | none => .error (.notFound "エクササイズが見つかりません")
  | some e =>
    .ok ({ db with
           exercises := updateFirst (fun x => x.id == exercise_id && x.user_id == uid)
             (fun x => { x with category_id := category_id }) db.exercises },
         { e with category_id := category_id })

/-- main.py `delete_exercise` (lines 198-215). -/
def delete_exercise (db : DB) (uid exercise_id : Nat) : Except ApiError DB :=
  match db.exercises.find? (fun e => e.id == exercise_id && e.user_id == uid) with
  | none => .error (.notFound "エクササイズが見つかりません")
  | some _ =>
    .ok { db with
          exercises := db.exercises.eraseP (fun e => e.id == exercise_id && e.user_id == uid) }

/-- main.py `get_records` (lines 219-225): the caller's records. -/
def get_records (db : DB) (uid : Nat) : List Record :=
  db.records.filter (fun r => r.user_id == uid)

/-- main.py `create_record` (lines 228-259): look up the exercise by id and
owner (404 if absent), compute `volume = weight * reps * sets`, snapshot the
exercise's name into `exercise_name`, insert.  `RecordCreate` has no `memo`
field, so `memo` is the column default, null. -/
def create_record (db : DB) (uid : Nat) (date : String) (exercise_id : Nat)
    (weight : ℚ) (reps sets : ℤ) : Except ApiError (DB × Record) :=
  match db.exercises.find? (fun e => e.id == exercise_id && e.user_id == uid) with
  | none => .error (.notFound "エクササイズが見つかりません")
  | some exercise =>
    let volume : ℚ := weight * (reps : ℚ) * (sets : ℚ)
    let r : Record :=
      { id := db.nextRecordId, date := date, exercise_id := exercise_id
        exercise_name := exercise.name, weight := weight, reps := reps, sets := sets
        memo := none, volume := volume, user_id := uid }
    .ok ({ db with records := db.records ++ [r], nextRecordId := db.nextRecordId + 1 }, r)

/-- main.py `delete_record` (lines 262-279). -/
def delete_record (db : DB) (uid record_id : Nat) : Except ApiError DB :=
  match db.records.find? (fun r => r.id == record_id && r.user_id == uid) with
  | none => .error (.notFound "記録が見つかりません")
  | some _ =>
    .ok { db with
          records := db.records.eraseP (fun r => r.id == record_id && r.user_id == uid) }

/-- The response of main.py `get_stats` (schemas.StatsResponse). -/
structure Stats where
  total_workouts : Nat
  total_volume : ℤ
  max_weight : ℚ
deriving DecidableEq, Repr

/-- Python `int(x)` on a real number: truncation toward zero. -/
def pyInt (q : ℚ) : ℤ := q.num.tdiv q.den

/-- Python `max(gen, default=d)`: `d` on an empty sequence, otherwise the
maximum of the elements themselves (not clamped by `d`). -/
def pyMaxD (l : List ℚ) (d : ℚ) : ℚ :=
  match l with
  | [] => d
  | x :: xs => xs.foldl max x

/-- main.py `get_stats` (lines 283-299): distinct dates counted via a Python
set, total volume summed then cast with `int(...)`, max weight via
`max(..., default=0)`.  (`r.volume or 0` / `r.weight or 0` only replace a
null or zero value by `0`, the identity here since both columns are
non-null in the model.) -/
def get_stats (db : DB) (uid : Nat) : Stats :=
  let records := db.records.filter (fun r => r.user_id == uid)
  let unique_dates := (records.map (fun r => r.date)).dedup
  let total_volume := (records.map (fun r => r.volume)).sum
  let max_weight := pyMaxD (records.map (fun r => r.weight)) 0
  { total_workouts := unique_dates.length
    total_volume := pyInt total_volume
    max_weight := max_weight }

/-- One request against the API, tagged with the acting user's id (resolved
by the bearer token in main.py, modelled as a parameter).  The list/stats
endpoints are read-only; they are included so that state-preservation can be
stated over every endpoint. -/
inductive Op where
  | register (email hashed_password : String)
  | createCategory (uid : Nat) (name : String)
  | deleteCategory (uid category_id : Nat)
  | createExercise (uid : Nat) (name : String) (category_id : Option Nat)
  | updateExercise (uid exercise_id : Nat) (category_id : Option Nat)
  | deleteExercise (uid exercise_id : Nat)
  | createRecord (uid : Nat) (date : String) (exercise_id : Nat)
      (weight : ℚ) (reps sets : ℤ)
  | deleteRecord (uid record_id : Nat)
  | listCategories (uid : Nat)
  | listExercises (uid : Nat)
  | listRecords (uid : Nat)
  | getStats (uid : Nat)
deriving DecidableEq, Repr

/-- The state after one request: the handler's final committed state, or the
unchanged state when the handler raises (the transaction is not committed).
The read-only endpoints (`get_categories`, `get_exercises`, `get_records`,
`get_stats`) run no write, so they leave the state as it is. -/
def applyOp (db : DB) (op : Op) : DB :=
  match op with
  | .register email hp =>
    match register db email hp with | .ok db' => db' | .error _ => db
  | .createCategory uid name => (create_category db uid name).1
  | .deleteCategory uid cid =>
    match delete_category db uid cid with | .ok db' => db' | .error _ => db
  | .createExercise uid name cid => (create_exercise db uid name cid).1
  | .updateExercise uid eid cid =>
    match update_exercise db uid eid cid with | .ok p => p.1 | .error _ => db
  | .deleteExercise uid eid =>
    match delete_exercise db uid eid with | .ok db' => db' | .error _ => db
  | .createRecord uid date eid w reps sets =>
    match create_record db uid date eid w reps sets with | .ok p => p.1 | .error _ => db
  | .deleteRecord uid rid =>
    match delete_record db uid rid with | .ok db' => db' | .error _ => db
  | .listCategories _ => db
  | .listExercises _ => db
  | .listRecords _ => db
  | .getStats _ => db

/-- A sequence of requests, applied in order. -/
def applyOps (db : DB) (ops : List Op) : DB :=
  ops.foldl applyOp db

/-- The ownership invariant of spec §3: every exercise whose `category_id`
is non-null references a category owned by the exercise's own user. -/
def catOwnershipInv (db : DB) : Prop :=
  ∀ e ∈ db.exercises, ∀ cid, e.category_id = some cid →
    ∃ c ∈ db.categories, c.id = cid ∧ c.user_id = e.user_id

instance (db : DB) : Decidable (catOwnershipInv db) := by
  unfold catOwnershipInv; infer_instance

/-- A two-user fixture: user 2 owns category 5, exercise 7 (linked to
category 5) and record 9; user 1 owns nothing. -/
def dbTwoUsers : DB :=
  { users := [{ id := 1, email := "u1@example.com", hashed_password := "h1" },
              { id := 2, email := "u2@example.com", hashed_password := "h2" }]
    categories := [{ id := 5, name := "Chest", user_id := 2 }]
    exercises := [{ id := 7, name := "Bench", category_id := some 5, user_id := 2 }]
    records := [{ id := 9, date := "2024-01-01", exercise_id := 7, exercise_name := "Bench",
                  weight := 50, reps := 10, sets := 3, memo := none, volume := 1500,
                  user_id := 2 }]
    nextUserId := 3, nextCategoryId := 6, nextExerciseId := 8, nextRecordId := 10 }

/-- A fixture in which user 1 owns category 1, referenced both by user 1's
exercise 10 and by user 2's exercise 20; exercise 30 is unlinked. -/
def dbCross : DB :=
  { users := [{ id := 1, email := "u1@example.com", hashed_password := "h1" },
              { id := 2, email := "u2@example.com", hashed_password := "h2" }]
    categories := [{ id := 1, name := "Chest", user_id := 1 }]
    exercises := [{ id := 10, name := "Bench", category_id := some 1, user_id := 1 },
                  { id := 20, name := "Row", category_id := some 1, user_id := 2 },
                  { id := 30, name := "Squat", category_id := none, user_id := 1 }]
    records := []
    nextUserId := 3, nextCategoryId := 2, nextExerciseId := 31, nextRecordId := 1 }

/-- The record produced by `create_record dbTwoUsers 2 "2024-03-01" 7 50 10 3`;
its volume is `50 * 10 * 3 = 1500`, kept in product form so that the
creation equation holds by `rfl` (`Rat.mul` is irreducible). -/
def rec10 : Record :=
  { id := 10, date := "2024-03-01", exercise_id := 7, exercise_name := "Bench",
    weight := 50, reps := 10, sets := 3, memo := none,
    volume := 50 * ((10 : ℤ) : ℚ) * ((3 : ℤ) : ℚ), user_id := 2 }

/-- The state after that `create_record` call on `dbTwoUsers`. -/
def dbTwoUsersAfterCreate : DB :=
  { dbTwoUsers with records := dbTwoUsers.records ++ [rec10], nextRecordId := 11 }

/-- A single-user fixture for the stats endpoint: three records on two
distinct dates with volumes 100, 50, 200 and weights 50, 20, 30. -/
def dbStats : DB :=
  { users := [{ id := 1, email := "s@example.com", hashed_password := "h" }]
    categories := []
    exercises := [{ id := 1, name := "Bench", category_id := none, user_id := 1 }]
    records :=
      [{ id := 1, date := "2024-01-01", exercise_id := 1, exercise_name := "Bench",
         weight := 50, reps := 1, sets := 2, memo := none, volume := 100, user_id := 1 },
       { id := 2, date := "2024-01-01", exercise_id := 1, exercise_name := "Bench",
         weight := 20, reps := 5, sets := 1, memo := none, volume := 50, user_id := 1 },
       { id := 3, date := "2024-01-02", exercise_id := 1, exercise_name := "Bench",
         weight := 30, reps := 2, sets := 5, memo := none, volume := 200, user_id := 1 }]
    nextUserId := 2, nextCategoryId := 1, nextExerciseId := 2, nextRecordId := 4 }

/-- The state committed by `register`'s first `db.commit()` when registering
`a@example.com` on the empty database: the user row exists, no exercises. -/
def regStep1 : DB :=
  { emptyDB with
    users := [{ id := 1, email := "a@example.com", hashed_password := "h" }]
    nextUserId := 2 }

/-- Request sequence reaching a state that violates the category-ownership
invariant: user 2 owns category 1, then user 1 links a new exercise to it. -/
def c9Ops : List Op :=
  [.register "u1@example.com" "h1", .register "u2@example.com" "h2",
   .createCategory 2 "Arms", .createExercise 1 "Curl" (some 1)]

/-- Exercise 7 after user 2 relinks it to the nonexistent category 99. -/
def updExercise7 : Exercise :=
  { id := 7, name := "Bench", category_id := some 99, user_id := 2 }

/-- State of `dbTwoUsers` after `update_exercise dbTwoUsers 2 7 (some 99)`. -/
def updDB : DB :=
  { dbTwoUsers with exercises := [updExercise7] }

/-! ## Helper lemmas about the row lookups -/

lemma find?_category_none_of_other_owner (l : List Category) (i u1 u2 : Nat)
    (hne : u1 ≠ u2) (h : ∀ c ∈ l, c.id = i → c.user_id = u2) :
    l.find? (fun c => c.id == i && c.user_id == u1) = none := by
  refine List.find?_eq_none.mpr (fun c hc => ?_)
  simp only [Bool.and_eq_true, beq_iff_eq, not_and]
  intro h1 h2
  have h3 := h c hc h1
  rw [h2] at h3
  exact hne h3

lemma find?_category_none_of_absent (l : List Category) (i u1 : Nat)
    (h : ∀ c ∈ l, c.id ≠ i) :
    l.find? (fun c => c.id == i && c.user_id == u1) = none := by
  refine List.find?_eq_none.mpr (fun c hc => ?_)
  simp only [Bool.and_eq_true, beq_iff_eq, not_and]
  intro h1
  exact absurd h1 (h c hc)

lemma find?_exercise_none_of_other_owner (l : List Exercise) (i u1 u2 : Nat)
    (hne : u1 ≠ u2) (h : ∀ e ∈ l, e.id = i → e.user_id = u2) :
    l.find? (fun e => e.id == i && e.user_id == u1) = none := by
  refine List.find?_eq_none.mpr (fun e he => ?_)
  simp only [Bool.and_eq_true, beq_iff_eq, not_and]
  intro h1 h2
  have h3 := h e he h1
  rw [h2] at h3
  exact hne h3

lemma find?_exercise_none_of_absent (l : List Exercise) (i u1 : Nat)
    (h : ∀ e ∈ l, e.id ≠ i) :
    l.find? (fun e => e.id == i && e.user_id == u1) = none := by
  refine List.find?_eq_none.mpr (fun e he => ?_)
  simp only [Bool.and_eq_true, beq_iff_eq, not_and]
  intro h1
  exact absurd h1 (h e he)

lemma find?_record_none_of_other_owner (l : List Record) (i u1 u2 : Nat)
    (hne : u1 ≠ u2) (h : ∀ r ∈ l, r.id = i → r.user_id = u2) :
    l.find? (fun r => r.id == i && r.user_id == u1) = none := by
  refine List.find?_eq_none.mpr (fun r hr => ?_)
  simp only [Bool.and_eq_true, beq_iff_eq, not_and]
  intro h1 h2
  have h3 := h r hr h1
  rw [h2] at h3
  exact hne h3

lemma find?_record_none_of_absent (l : List Record) (i u1 : Nat)
    (h : ∀ r ∈ l, r.id ≠ i) :
    l.find? (fun r => r.id == i && r.user_id == u1) = none := by
  refine List.find?_eq_none.mpr (fun r hr => ?_)
  simp only [Bool.and_eq_true, beq_iff_eq, not_and]
  intro h1
  exact absurd h1 (h r hr)

lemma find?_some_of_mem {α : Type} {l : List α} {p : α → Bool} {x : α}
    (hx : x ∈ l) (hp : p x) : ∃ y, l.find? p = some y ∧ p y := by
  have h := List.find?_isSome.mpr ⟨x, hx, hp⟩
  cases hfind : l.find? p with
  | none => rw [hfind] at h; simp at h
  | some y => exact ⟨y, rfl, List.find?_some hfind⟩

/-! ## Shape of each successful write -/

lemma seedDefaultExercises_shape (db : DB) (uid : Nat) :
    seedDefaultExercises db uid =
      { db with
        exercises := db.exercises ++
          [{ id := db.nextExerciseId, name := "ベンチプレス",
             category_id := none, user_id := uid },
           { id := db.nextExerciseId + 1, name := "スクワット",
             category_id := none, user_id := uid },
           { id := db.nextExerciseId + 2, name := "デッドリフト",
             category_id := none, user_id := uid },
           { id := db.nextExerciseId + 3, name := "懸垂",
             category_id := none, user_id := uid },
           { id := db.nextExerciseId + 4, name := "ショルダープレス",
             category_id := none, user_id := uid },
           { id := db.nextExerciseId + 5, name := "バーベルロー",
             category_id := none, user_id := uid }]
        nextExerciseId := db.nextExerciseId + 6 } := by
  simp [seedDefaultExercises, default_exercises, List.append_assoc]

lemma register_ok_shape {db db' : DB} {email hp : String}
    (h : register db email hp = .ok db') :
    db.users.find? (fun u => u.email == email) = none ∧
    db' = seedDefaultExercises
      { db with
        users := db.users ++
          [{ id := db.nextUserId, email := email, hashed_password := hp }]
        nextUserId := db.nextUserId + 1 } db.nextUserId := by
  unfold register at h
  cases hf : db.users.find? (fun u => u.email == email) with
  | some u => rw [hf] at h; cases h
  | none =>
    rw [hf] at h
    simp only [Except.ok.injEq] at h
    exact ⟨rfl, h.symm⟩

lemma delete_category_ok_shape {db db' : DB} {uid cid : Nat}
    (h : delete_category db uid cid = .ok db') :
    db' = { db with
            exercises := db.exercises.map (fun e =>
              if e.category_id == some cid then { e with category_id := none } else e)
            categories := db.categories.eraseP
              (fun c => c.id == cid && c.user_id == uid) } := by
  unfold delete_category at h
  cases hf : db.categories.find? (fun c => c.id == cid && c.user_id == uid) with
  | none => rw [hf] at h; cases h
  | some c =>
    rw [hf] at h
    simp only [Except.ok.injEq] at h
    exact h.symm

lemma update_exercise_ok_shape {db db' : DB} {e' : Exercise} {uid eid : Nat}
    {newCat : Option Nat}
    (h : update_exercise db uid eid newCat = .ok (db', e')) :
    ∃ e, db.exercises.find? (fun x => x.id == eid && x.user_id == uid) = some e ∧
      e' = { e with category_id := newCat } ∧
      db' = { db with
              exercises := updateFirst (fun x => x.id == eid && x.user_id == uid)
                (fun x => { x with category_id := newCat }) db.exercises } := by
  unfold update_exercise at h
  cases hf : db.exercises.find? (fun x => x.id == eid && x.user_id == uid) with
  | none => rw [hf] at h; cases h
  | some e =>
    rw [hf] at h
    simp only [Except.ok.injEq, Prod.mk.injEq] at h
    exact ⟨e, rfl, h.2.symm, h.1.symm⟩

lemma delete_exercise_ok_shape {db db' : DB} {uid eid : Nat}
    (h : delete_exercise db uid eid = .ok db') :
    db' = { db with
            exercises := db.exercises.eraseP
              (fun e => e.id == eid && e.user_id == uid) } := by
  unfold delete_exercise at h
  cases hf : db.exercises.find? (fun e => e.id == eid && e.user_id == uid) with
  | none => rw [hf] at h; cases h
  | some e =>
    rw [hf] at h
    simp only [Except.ok.injEq] at h
    exact h.symm

lemma create_record_ok_shape {db db' : DB} {r : Record} {uid : Nat} {date : String}
    {eid : Nat} {w : ℚ} {reps sets : ℤ}
    (h : create_record db uid date eid w reps sets = .ok (db', r)) :
    ∃ exercise,
      db.exercises.find? (fun e => e.id == eid && e.user_id == uid) = some exercise ∧
      r = { id := db.nextRecordId, date := date, exercise_id := eid
            exercise_name := exercise.name, weight := w, reps := reps, sets := sets
            memo := none, volume := w * (reps : ℚ) * (sets : ℚ), user_id := uid } ∧
      db' = { db with
              records := db.records ++ [r],
              nextRecordId := db.nextRecordId + 1 } := by
  unfold create_record at h
  cases hf : db.exercises.find? (fun e => e.id == eid && e.user_id == uid) with
  | none => rw [hf] at h; cases h
  | some ex =>
    rw [hf] at h
    simp only [Except.ok.injEq, Prod.mk.injEq] at h
    refine ⟨ex, rfl, h.2.symm, ?_⟩
    rw [← h.1, ← h.2]

lemma delete_record_ok_shape {db db' : DB} {uid rid : Nat}
    (h : delete_record db uid rid = .ok db') :
    db' = { db with
            records := db.records.eraseP
              (fun r => r.id == rid && r.user_id == uid) } := by
  unfold delete_record at h
  cases hf : db.records.find? (fun r => r.id == rid && r.user_id == uid) with
  | none => rw [hf] at h; cases h
  | some r =>
    rw [hf] at h
    simp only [Except.ok.injEq] at h
    exact h.symm

/-! ## C1: id-addressed operations on another user's resources -/

/-- C1: for distinct users `u1 ≠ u2`, each id-addressed operation invoked by
`u1` on a resource id whose rows all belong to `u2` (`delete_category`,
`update_exercise`, `delete_exercise`, `delete_record`, and `create_record`'s
exercise lookup) returns the 404 not-found error, and the result is exactly
the one obtained on any database `dbA` in which the id does not exist at
all. -/
theorem ops_on_other_users_ids_return_notFound
    (db dbA : DB) (u1 u2 : Nat) (hne : u1 ≠ u2)
    (cid eid rid : Nat) (newCat : Option Nat) (date : String)
    (w : ℚ) (reps sets : ℤ) :
    ((∀ c ∈ db.categories, c.id = cid → c.user_id = u2) →
     (∀ c ∈ dbA.categories, c.id ≠ cid) →
     delete_category db u1 cid = .error (.notFound "カテゴリが見つかりません") ∧
     delete_category db u1 cid = delete_category dbA u1 cid) ∧
    ((∀ e ∈ db.exercises, e.id = eid → e.user_id = u2) →
     (∀ e ∈ dbA.exercises, e.id ≠ eid) →
     update_exercise db u1 eid newCat = .error (.notFound "エクササイズが見つかりません") ∧
     update_exercise db u1 eid newCat = update_exercise dbA u1 eid newCat) ∧
    ((∀ e ∈ db.exercises, e.id = eid → e.user_id = u2) →
     (∀ e ∈ dbA.exercises, e.id ≠ eid) →
     delete_exercise db u1 eid = .error (.notFound "エクササイズが見つかりません") ∧
     delete_exercise db u1 eid = delete_exercise dbA u1 eid) ∧
    ((∀ r ∈ db.records, r.id = rid → r.user_id = u2) →
     (∀ r ∈ dbA.records, r.id ≠ rid) →
     delete_record db u1 rid = .error (.notFound "記録が見つかりません") ∧
     delete_record db u1 rid = delete_record dbA u1 rid) ∧
    ((∀ e ∈ db.exercises, e.id = eid → e.user_id = u2) →
     (∀ e ∈ dbA.exercises, e.id ≠ eid) →
     create_record db u1 date eid w reps sets =
       .error (.notFound "エクササイズが見つかりません") ∧
     create_record db u1 date eid w reps sets =
       create_record dbA u1 date eid w reps sets) := by
  refine ⟨fun h1 h2 => ?_, fun h1 h2 => ?_, fun h1 h2 => ?_, fun h1 h2 => ?_,
          fun h1 h2 => ?_⟩
  · have e1 := find?_category_none_of_other_owner db.categories cid u1 u2 hne h1
    have e2 := find?_category_none_of_absent dbA.categories cid u1 h2
    constructor
    · simp only [delete_category, e1]
    · simp only [delete_category, e1, e2]
  · have e1 := find?_exercise_none_of_other_owner db.exercises eid u1 u2 hne h1
    have e2 := find?_exercise_none_of_absent dbA.exercises eid u1 h2
    constructor
    · simp only [update_exercise, e1]
    · simp only [update_exercise, e1, e2]
  · have e1 := find?_exercise_none_of_other_owner db.exercises eid u1 u2 hne h1
    have e2 := find?_exercise_none_of_absent dbA.exercises eid u1 h2
    constructor
    · simp only [delete_exercise, e1]
    · simp only [delete_exercise, e1, e2]
  · have e1 := find?_record_none_of_other_owner db.records rid u1 u2 hne h1
    have e2 := find?_record_none_of_absent dbA.records rid u1 h2
    constructor
    · simp only [delete_record, e1]
    · simp only [delete_record, e1, e2]
  · have e1 := find?_exercise_none_of_other_owner db.exercises eid u1 u2 hne h1
    have e2 := find?_exercise_none_of_absent dbA.exercises eid u1 h2
    constructor
    · simp only [create_record, e1]
    · simp only [create_record, e1, e2]

/-- Witness for C1 on the two-user fixture: user 1 acting on user 2's
category 5, exercise 7 and record 9. -/
theorem ops_on_other_users_ids_return_notFound_witness :
    delete_category dbTwoUsers 1 5 = .error (.notFound "カテゴリが見つかりません") ∧
    update_exercise dbTwoUsers 1 7 none =
      .error (.notFound "エクササイズが見つかりません") ∧
    delete_exercise dbTwoUsers 1 7 = .error (.notFound "エクササイズが見つかりません") ∧
    delete_record dbTwoUsers 1 9 = .error (.notFound "記録が見つかりません") ∧
    create_record dbTwoUsers 1 "2024-01-02" 7 50 10 3 =
      .error (.notFound "エクササイズが見つかりません") := by
  have T := ops_on_other_users_ids_return_notFound dbTwoUsers emptyDB 1 2 (by decide)
    5 7 9 none "2024-01-02" 50 10 3
  exact ⟨(T.1 (by decide) (by decide)).1, (T.2.1 (by decide) (by decide)).1,
         (T.2.2.1 (by decide) (by decide)).1, (T.2.2.2.1 (by decide) (by decide)).1,
         (T.2.2.2.2 (by decide) (by decide)).1⟩

/-! ## C2: deleteCategory unlinks the owner's exercises and removes the category -/

/-- C2: when the caller owns a category with the given id (and category ids
are unique, as primary keys are), `delete_category` succeeds in a single
transition whose post-state both unlinks every one of the caller's exercises
that referenced the category (same rows, `category_id` now null, nothing
else changed, no exercise lost) and removes the category from
`get_categories`; users and records are untouched. -/
theorem delete_category_unlinks_then_removes
    (db : DB) (uid cid : Nat)
    (hid : (db.categories.map (fun c => c.id)).Nodup)
    (hown : ∃ c ∈ db.categories, c.id = cid ∧ c.user_id = uid) :
    ∃ db', delete_category db uid cid = .ok db' ∧
      (∀ e ∈ db.exercises, e.user_id = uid → e.category_id = some cid →
        { e with category_id := none } ∈ db'.exercises) ∧
      (∀ e' ∈ db'.exercises, e'.category_id ≠ some cid) ∧
      (∀ e ∈ db.exercises, e.category_id ≠ some cid → e ∈ db'.exercises) ∧
      db'.exercises.length = db.exercises.length ∧
      (∀ c ∈ get_categories db' uid, c.id ≠ cid) ∧
      db'.records = db.records ∧ db'.users = db.users := by
  obtain ⟨c0, hc0, hcid0, huid0⟩ := hown
  obtain ⟨c1, hfind, hp⟩ := find?_some_of_mem (p := fun c => c.id == cid && c.user_id == uid)
    hc0 (by simp [hcid0, huid0])
  have hok : delete_category db uid cid =
      .ok { db with
            exercises := db.exercises.map (fun e =>
              if e.category_id == some cid then { e with category_id := none } else e)
            categories := db.categories.eraseP
              (fun c => c.id == cid && c.user_id == uid) } := by
    unfold delete_category
    rw [hfind]
  refine ⟨_, hok, ?_, ?_, ?_, by simp, ?_, rfl, rfl⟩
  · intro e he hu hl
    exact List.mem_map.mpr ⟨e, he, by simp [hl]⟩
  · intro e' he'
    obtain ⟨e, _, rfl⟩ := List.mem_map.mp he'
    by_cases hl : e.category_id = some cid
    · simp [hl]
    · simp [beq_false_of_ne hl]
      exact hl
  · intro e he hnl
    exact List.mem_map.mpr ⟨e, he, by simp [beq_false_of_ne hnl]⟩
  · intro c hc
    simp only [get_categories, List.mem_filter, beq_iff_eq] at hc
    obtain ⟨hcmem, hcu⟩ := hc
    intro hcid2
    have hpc : (c.id == cid && c.user_id == uid) = true := by simp [hcid2, hcu]
    have hc1mem := List.mem_of_find?_eq_some hfind
    obtain ⟨a, l1, l2, hl1, hpa, hdecomp, herase⟩ :=
      List.exists_of_eraseP (p := fun c => c.id == cid && c.user_id == uid) hc1mem hp
    rw [herase] at hcmem
    have haid : a.id = cid := by
      simp only [Bool.and_eq_true, beq_iff_eq] at hpa
      exact hpa.1
    rcases List.mem_append.mp hcmem with h1 | h2
    · exact hl1 c h1 hpc
    · have hmem2 : a.id ∈ l2.map (fun c => c.id) := by
        rw [haid, ← hcid2]
        exact List.mem_map_of_mem _ h2
      have hnd := hid
      rw [hdecomp] at hnd
      simp only [List.map_append, List.map_cons] at hnd
      have hnd2 := (List.nodup_append.mp hnd).2.1
      rw [List.nodup_cons] at hnd2
      exact hnd2.1 hmem2

/-- Witness for C2 on the cross fixture: user 1 deletes category 1; the
linked exercise 10 is unlinked and the category disappears from the
listing. -/
theorem delete_category_unlinks_then_removes_witness :
    ∃ db', delete_category dbCross 1 1 = .ok db' ∧
      ({ id := 10, name := "Bench", category_id := none, user_id := 1 } : Exercise)
        ∈ db'.exercises ∧
      (∀ c ∈ get_categories db' 1, c.id ≠ 1) := by
  obtain ⟨db', hok, hunl, _, _, _, habs, _, _⟩ :=
    delete_category_unlinks_then_removes dbCross 1 1 (by decide) (by decide)
  refine ⟨db', hok, ?_, habs⟩
  simpa using hunl { id := 10, name := "Bench", category_id := some 1, user_id := 1 }
    (by decide) rfl rfl

/-! ## C10: the unlink step has no owner filter -/

/-- C10: `delete_category`'s unlink selects exercises by `category_id`
alone: when the caller owns the category, every exercise referencing that
category id — whoever owns it — ends up with `category_id` null (same row
otherwise), exercises not referencing it are untouched, and none is
deleted. -/
theorem delete_category_unlink_ignores_owner
    (db : DB) (uid cid : Nat)
    (hown : ∃ c ∈ db.categories, c.id = cid ∧ c.user_id = uid) :
    ∃ db', delete_category db uid cid = .ok db' ∧
      (∀ e ∈ db.exercises, e.category_id = some cid →
        { e with category_id := none } ∈ db'.exercises) ∧
      (∀ e ∈ db.exercises, e.category_id ≠ some cid → e ∈ db'.exercises) ∧
      db'.exercises.length = db.exercises.length := by
  obtain ⟨c0, hc0, hcid0, huid0⟩ := hown
  obtain ⟨c1, hfind, hp⟩ := find?_some_of_mem (p := fun c => c.id == cid && c.user_id == uid)
    hc0 (by simp [hcid0, huid0])
  have hok : delete_category db uid cid =
      .ok { db with
            exercises := db.exercises.map (fun e =>
              if e.category_id == some cid then { e with category_id := none } else e)
            categories := db.categories.eraseP
              (fun c => c.id == cid && c.user_id == uid) } := by
    unfold delete_category
    rw [hfind]
  refine ⟨_, hok, ?_, ?_, by simp⟩
  · intro e he hl
    exact List.mem_map.mpr ⟨e, he, by simp [hl]⟩
  · intro e he hnl
    exact List.mem_map.mpr ⟨e, he, by simp [beq_false_of_ne hnl]⟩

/-- Witness for C10 on the cross fixture: user 1 deletes their category 1
and user 2's exercise 20, which referenced it, is unlinked too. -/
theorem delete_category_unlink_ignores_owner_witness :
    ∃ db', delete_category dbCross 1 1 = .ok db' ∧
      ({ id := 20, name := "Row", category_id := none, user_id := 2 } : Exercise)
        ∈ db'.exercises := by
  obtain ⟨db', hok, hunl, _, _⟩ :=
    delete_category_unlink_ignores_owner dbCross 1 1 (by decide)
  refine ⟨db', hok, ?_⟩
  simpa using hunl { id := 20, name := "Row", category_id := some 1, user_id := 2 }
    (by decide) rfl

/-! ## Frame lemmas: what each request can do to the records table -/

lemma seedDefaultExercises_records (db : DB) (uid : Nat) :
    (seedDefaultExercises db uid).records = db.records := by
  rw [seedDefaultExercises_shape]

lemma applyOp_register_records (db : DB) (email hp : String) :
    (applyOp db (.register email hp)).records = db.records := by
  cases h : register db email hp with
  | error e => simp [applyOp, h]
  | ok db' =>
    simp only [applyOp, h]
    obtain ⟨-, hdb⟩ := register_ok_shape h
    rw [hdb, seedDefaultExercises_records]

lemma found_exercise_props {db : DB} {uid eid : Nat} {ex : Exercise}
    (hfind : db.exercises.find? (fun e => e.id == eid && e.user_id == uid) = some ex) :
    ex ∈ db.exercises ∧ ex.id = eid ∧ ex.user_id = uid := by
  have h1 := List.mem_of_find?_eq_some hfind
  have h2 := List.find?_some hfind
  simp only [Bool.and_eq_true, beq_iff_eq] at h2
  exact ⟨h1, h2.1, h2.2⟩

/-- Every request leaves the records table unchanged, appends exactly one
new row, or erases one row; no request rewrites a stored record in place. -/
lemma applyOp_records_evolution (db : DB) (op : Op) :
    (applyOp db op).records = db.records ∨
    (∃ r, (applyOp db op).records = db.records ++ [r]) ∨
    (∃ p, (applyOp db op).records = db.records.eraseP p) := by
  cases op with
  | register email hp => exact .inl (applyOp_register_records db email hp)
  | createCategory uid name => exact .inl rfl
  | deleteCategory uid cid =>
    cases h : delete_category db uid cid with
    | error e => left; simp [applyOp, h]
    | ok db' =>
      left
      simp only [applyOp, h]
      rw [delete_category_ok_shape h]
  | createExercise uid name cid => exact .inl rfl
  | updateExercise uid eid cid =>
    cases h : update_exercise db uid eid cid with
    | error e => left; simp [applyOp, h]
    | ok p =>
      left
      simp only [applyOp, h]
      obtain ⟨e, -, -, hdb⟩ :=
        update_exercise_ok_shape (show _ = .ok (p.1, p.2) by rw [h])
      rw [hdb]
  | deleteExercise uid eid =>
    cases h : delete_exercise db uid eid with
    | error e => left; simp [applyOp, h]
    | ok db' =>
      left
      simp only [applyOp, h]
      rw [delete_exercise_ok_shape h]
  | createRecord uid date eid w reps sets =>
    cases h : create_record db uid date eid w reps sets with
    | error e => left; simp [applyOp, h]
    | ok p =>
      right; left
      simp only [applyOp, h]
      obtain ⟨ex, -, -, hdb⟩ :=
        create_record_ok_shape (show _ = .ok (p.1, p.2) by rw [h])
      exact ⟨p.2, by rw [hdb]⟩
  | deleteRecord uid rid =>
    cases h : delete_record db uid rid with
    | error e => left; simp [applyOp, h]
    | ok db' =>
      right; right
      simp only [applyOp, h]
      exact ⟨_, by rw [delete_record_ok_shape h]⟩
  | listCategories uid => exact .inl rfl
  | listExercises uid => exact .inl rfl
  | listRecords uid => exact .inl rfl
  | getStats uid => exact .inl rfl

/-! ## C8: records are write-time snapshots, never edited afterward -/

/-- C8: after any request, every record in the store is either one of the
previously stored records, bit for bit (in particular its `exercise_name`
and `volume` are unchanged), or the single record just created — whose
`exercise_name` is the name of the owning exercise as looked up at creation
and whose `volume` is `weight * reps * sets`; moreover the records table is
only ever left unchanged, appended to, or erased from, so records are
created and deleted whole.  The read handlers are pure queries and change
nothing. -/
theorem records_are_snapshots_and_immutable (db : DB) (op : Op) :
    (∀ r' ∈ (applyOp db op).records, r' ∈ db.records ∨
      ∃ uid date eid w reps sets st r,
        op = Op.createRecord uid date eid w reps sets ∧
        create_record db uid date eid w reps sets = .ok (st, r) ∧ r' = r ∧
        (∃ e ∈ db.exercises, e.id = eid ∧ e.user_id = uid ∧ r.exercise_name = e.name) ∧
        r.volume = w * (reps : ℚ) * (sets : ℚ)) ∧
    ((applyOp db op).records = db.records ∨
      (∃ r, (applyOp db op).records = db.records ++ [r]) ∨
      (∃ p, (applyOp db op).records = db.records.eraseP p)) := by
  refine ⟨?_, applyOp_records_evolution db op⟩
  cases op with
  | createRecord uid date eid w reps sets =>
    cases h : create_record db uid date eid w reps sets with
    | error e =>
      intro r' hr'
      simp only [applyOp, h] at hr'
      exact .inl hr'
    | ok p =>
      intro r' hr'
      simp only [applyOp, h] at hr'
      obtain ⟨ex, hfind, hr, hdb⟩ :=
        create_record_ok_shape (show _ = .ok (p.1, p.2) by rw [h])
      rw [hdb] at hr'
      rcases List.mem_append.mp hr' with hold | hnew
      · exact .inl hold
      · right
        obtain ⟨hmem, hid, huid⟩ := found_exercise_props hfind
        refine ⟨uid, date, eid, w, reps, sets, p.1, p.2, rfl,
          (show _ = .ok (p.1, p.2) by rw [h]), List.mem_singleton.mp hnew,
          ⟨ex, hmem, hid, huid, ?_⟩, ?_⟩
        · rw [hr]
        · rw [hr]
  | register email hp =>
    intro r' hr'
    rw [applyOp_register_records] at hr'
    exact .inl hr'
  | createCategory uid name => exact fun r' hr' => .inl hr'
  | deleteCategory uid cid =>
    intro r' hr'
    cases h : delete_category db uid cid with
    | error e => simp only [applyOp, h] at hr'; exact .inl hr'
    | ok db' =>
      simp only [applyOp, h] at hr'
      rw [delete_category_ok_shape h] at hr'
      exact .inl hr'
  | createExercise uid name cid => exact fun r' hr' => .inl hr'
  | updateExercise uid eid cid =>
    intro r' hr'
    cases h : update_exercise db uid eid cid with
    | error e => simp only [applyOp, h] at hr'; exact .inl hr'
    | ok p =>
      simp only [applyOp, h] at hr'
      obtain ⟨e, -, -, hdb⟩ :=
        update_exercise_ok_shape (show _ = .ok (p.1, p.2) by rw [h])
      rw [hdb] at hr'
      exact .inl hr'
  | deleteExercise uid eid =>
    intro r' hr'
    cases h : delete_exercise db uid eid with
    | error e => simp only [applyOp, h] at hr'; exact .inl hr'
    | ok db' =>
      simp only [applyOp, h] at hr'
      rw [delete_exercise_ok_shape h] at hr'
      exact .inl hr'
  | deleteRecord uid rid =>
    intro r' hr'
    cases h : delete_record db uid rid with
    | error e => simp only [applyOp, h] at hr'; exact .inl hr'
    | ok db' =>
      simp only [applyOp, h] at hr'
      rw [delete_record_ok_shape h] at hr'
      exact .inl (List.eraseP_subset _ hr')
  | listCategories uid => exact fun r' hr' => .inl hr'
  | listExercises uid => exact fun r' hr' => .inl hr'
  | listRecords uid => exact fun r' hr' => .inl hr'
  | getStats uid => exact fun r' hr' => .inl hr'

/-- Witness for C8: the record created on the two-user fixture is reported
as a creation-time snapshot of exercise 7's name with `volume = 50*10*3`. -/
theorem records_are_snapshots_and_immutable_witness :
    rec10 ∈ dbTwoUsers.records ∨
    ∃ uid date eid w reps sets st r,
      (Op.createRecord 2 "2024-03-01" 7 50 10 3 : Op) =
        Op.createRecord uid date eid w reps sets ∧
      create_record dbTwoUsers uid date eid w reps sets = .ok (st, r) ∧ rec10 = r ∧
      (∃ e ∈ dbTwoUsers.exercises, e.id = eid ∧ e.user_id = uid ∧
        r.exercise_name = e.name) ∧
      r.volume = w * (reps : ℚ) * (sets : ℚ) :=
  (records_are_snapshots_and_immutable dbTwoUsers
    (Op.createRecord 2 "2024-03-01" 7 50 10 3)).1 rec10
    (by
      have hcr : create_record dbTwoUsers 2 "2024-03-01" 7 50 10 3 =
          .ok (dbTwoUsersAfterCreate, rec10) := rfl
      simp only [applyOp, hcr]
      exact List.mem_append_right _ (List.mem_singleton.mpr rfl))

/-! ## C3: volume is computed once at creation -/

/-- C3: every successful `create_record` stores a record whose `volume` is
`weight * reps * sets` as computed at creation (the new record is appended,
all other records untouched), and no request ever recomputes it: after any
request every stored record is unchanged, or the table gained one new row or
lost one row whole. -/
theorem create_record_volume (db : DB) (uid : Nat) (date : String) (eid : Nat)
    (w : ℚ) (reps sets : ℤ) (db' : DB) (r : Record)
    (h : create_record db uid date eid w reps sets = .ok (db', r)) :
    r.volume = w * (reps : ℚ) * (sets : ℚ) ∧
    db'.records = db.records ++ [r] ∧
    (∀ (s : DB) (op : Op),
      (applyOp s op).records = s.records ∨
      (∃ r2, (applyOp s op).records = s.records ++ [r2]) ∨
      (∃ p, (applyOp s op).records = s.records.eraseP p)) := by
  obtain ⟨ex, hfind, hr, hdb⟩ := create_record_ok_shape h
  refine ⟨by rw [hr], by rw [hdb], applyOp_records_evolution⟩

/-- Witness for C3: creating a record with weight 50, reps 10, sets 3 on the
two-user fixture stores volume `50 * 10 * 3`, i.e. 1500. -/
theorem create_record_volume_witness :
    rec10.volume = 50 * ((10 : ℤ) : ℚ) * ((3 : ℤ) : ℚ) ∧ rec10.volume = 1500 :=
  ⟨(create_record_volume dbTwoUsers 2 "2024-03-01" 7 50 10 3
      dbTwoUsersAfterCreate rec10 rfl).1,
   by norm_num [rec10]⟩

/-! ## C5: createRecord fails with NotFound iff the caller owns no such exercise -/

/-- C5: `create_record` returns the 404 error exactly when no exercise with
the given id is owned by the calling user — whether the id is absent or the
exercise belongs to someone else — and in that case the request leaves the
state (in particular the record table) unchanged. -/
theorem create_record_notFound_iff (db : DB) (uid : Nat) (date : String) (eid : Nat)
    (w : ℚ) (reps sets : ℤ) :
    (create_record db uid date eid w reps sets =
        .error (.notFound "エクササイズが見つかりません") ↔
      ¬ ∃ e ∈ db.exercises, e.id = eid ∧ e.user_id = uid) ∧
    ((¬ ∃ e ∈ db.exercises, e.id = eid ∧ e.user_id = uid) →
      applyOp db (.createRecord uid date eid w reps sets) = db) := by
  have hnone : (¬ ∃ e ∈ db.exercises, e.id = eid ∧ e.user_id = uid) →
      db.exercises.find? (fun e => e.id == eid && e.user_id == uid) = none := by
    intro hne
    refine List.find?_eq_none.mpr (fun e he => ?_)
    simp only [Bool.and_eq_true, beq_iff_eq, not_and]
    intro h1 h2
    exact hne ⟨e, he, h1, h2⟩
  constructor
  · constructor
    · intro herr hex
      obtain ⟨e, he, h1, h2⟩ := hex
      obtain ⟨y, hfind, -⟩ := find?_some_of_mem (p := fun e => e.id == eid && e.user_id == uid)
        he (by simp [h1, h2])
      unfold create_record at herr
      rw [hfind] at herr
      cases herr
    · intro hne
      unfold create_record
      rw [hnone hne]
  · intro hne
    have herr : create_record db uid date eid w reps sets =
        .error (.notFound "エクササイズが見つかりません") := by
      unfold create_record
      rw [hnone hne]
    simp [applyOp, herr]

/-- Witness for C5: user 1 does not own exercise 7, so creating a record on
it fails and changes nothing. -/
theorem create_record_notFound_iff_witness :
    create_record dbTwoUsers 1 "2024-03-01" 7 50 10 3 =
      .error (.notFound "エクササイズが見つかりません") ∧
    applyOp dbTwoUsers (.createRecord 1 "2024-03-01" 7 50 10 3) = dbTwoUsers := by
  have T := create_record_notFound_iff dbTwoUsers 1 "2024-03-01" 7 50 10 3
  exact ⟨T.1.mpr (by decide), T.2 (by decide)⟩

/-! ## C6: duplicate-email registration fails and inserts nothing -/

/-- C6: registering with an email an existing user already uses fails with
the 400 duplicate-email error — both as the final result and at every
commit, so no user row and no exercise row is inserted: the state is
unchanged. -/
theorem register_duplicate_email (db : DB) (email hp : String)
    (h : ∃ u ∈ db.users, u.email = email) :
    register db email hp =
      .error (.badRequest "このメールアドレスは既に使用されています") ∧
    registerCommits db email hp =
      .error (.badRequest "このメールアドレスは既に使用されています") ∧
    applyOp db (.register email hp) = db := by
  obtain ⟨u, hu, hemail⟩ := h
  obtain ⟨y, hfind, -⟩ := find?_some_of_mem (p := fun u => u.email == email)
    hu (by simp [hemail])
  have h1 : register db email hp =
      .error (.badRequest "このメールアドレスは既に使用されています") := by
    unfold register
    rw [hfind]
  refine ⟨h1, ?_, by simp [applyOp, h1]⟩
  unfold registerCommits
  rw [hfind]

/-- Witness for C6: registering the already-used email of user 1 fails and
leaves the fixture unchanged. -/
theorem register_duplicate_email_witness :
    register dbTwoUsers "u1@example.com" "x" =
      .error (.badRequest "このメールアドレスは既に使用されています") ∧
    registerCommits dbTwoUsers "u1@example.com" "x" =
      .error (.badRequest "このメールアドレスは既に使用されています") ∧
    applyOp dbTwoUsers (.register "u1@example.com" "x") = dbTwoUsers :=
  register_duplicate_email dbTwoUsers "u1@example.com" "x" (by decide)

/-! ## C4: the stats aggregation -/

lemma pyInt_eq_floor (q : ℚ) (h : 0 ≤ q) : pyInt q = ⌊q⌋ := by
  unfold pyInt
  rw [Int.tdiv_eq_ediv (Rat.num_nonneg.mpr h) (Int.natCast_nonneg q.den)]
  exact Rat.floor_def.symm

lemma pyInt_eq_ceil (q : ℚ) (h : q < 0) : pyInt q = ⌈q⌉ := by
  have hnum : q.num < 0 := Rat.num_neg.mpr h
  unfold pyInt
  have h1 : q.num.tdiv (q.den : ℤ) = -((-q.num).tdiv (q.den : ℤ)) := by
    rw [Int.neg_tdiv, Int.neg_neg]
  rw [h1, Int.tdiv_eq_ediv (by omega) (Int.natCast_nonneg q.den)]
  have h2 : ⌊-q⌋ = (-q.num) / (q.den : ℤ) := by
    rw [Rat.floor_def, Rat.neg_num, Rat.neg_den]
  rw [← h2, ← Int.ceil_neg, neg_neg]

lemma foldl_max_mem (xs : List ℚ) (a : ℚ) :
    xs.foldl max a = a ∨ xs.foldl max a ∈ xs := by
  induction xs generalizing a with
  | nil => exact .inl rfl
  | cons x xs ih =>
    rw [List.foldl_cons]
    rcases ih (max a x) with h | h
    · rw [h]
      rcases max_choice a x with h2 | h2
      · exact .inl h2
      · right
        rw [h2]
        exact List.mem_cons_self x xs
    · exact .inr (List.mem_cons_of_mem x h)

lemma le_foldl_max (xs : List ℚ) (a : ℚ) :
    a ≤ xs.foldl max a ∧ ∀ b ∈ xs, b ≤ xs.foldl max a := by
  induction xs generalizing a with
  | nil => exact ⟨le_refl a, by simp⟩
  | cons x xs ih =>
    rw [List.foldl_cons]
    obtain ⟨h1, h2⟩ := ih (max a x)
    refine ⟨le_trans (le_max_left a x) h1, ?_⟩
    intro b hb
    rcases List.mem_cons.mp hb with rfl | hb
    · exact le_trans (le_max_right a b) h1
    · exact h2 b hb

/-- C4: for every user, `get_stats` returns `total_workouts` equal to the
number of distinct dates among the user's records, `total_volume` equal to
the sum of their volumes truncated toward zero (the floor when the sum is
nonnegative, the ceiling when negative — truncation, not rounding), and
`max_weight` equal to the greatest stored weight; on a user with no records
it returns zeros with no error. -/
theorem computeStats_correct (db : DB) (uid : Nat) :
    (get_stats db uid).total_workouts =
      ((db.records.filter (fun r => r.user_id == uid)).map (fun r => r.date)).toFinset.card ∧
    (0 ≤ ((db.records.filter (fun r => r.user_id == uid)).map (fun r => r.volume)).sum →
      (get_stats db uid).total_volume =
        ⌊((db.records.filter (fun r => r.user_id == uid)).map (fun r => r.volume)).sum⌋) ∧
    (((db.records.filter (fun r => r.user_id == uid)).map (fun r => r.volume)).sum < 0 →
      (get_stats db uid).total_volume =
        ⌈((db.records.filter (fun r => r.user_id == uid)).map (fun r => r.volume)).sum⌉) ∧
    (db.records.filter (fun r => r.user_id == uid) = [] →
      get_stats db uid = { total_workouts := 0, total_volume := 0, max_weight := 0 }) ∧
    (db.records.filter (fun r => r.user_id == uid) ≠ [] →
      (get_stats db uid).max_weight ∈
        (db.records.filter (fun r => r.user_id == uid)).map (fun r => r.weight) ∧
      ∀ w ∈ (db.records.filter (fun r => r.user_id == uid)).map (fun r => r.weight),
        w ≤ (get_stats db uid).max_weight) := by
  refine ⟨?_, ?_, ?_, ?_, ?_⟩
  · simp only [get_stats]
    exact (List.card_toFinset _).symm
  · intro hpos
    simp only [get_stats]
    exact pyInt_eq_floor _ hpos
  · intro hneg
    simp only [get_stats]
    exact pyInt_eq_ceil _ hneg
  · intro hempty
    unfold get_stats
    rw [hempty]
    rfl
  · intro hne
    cases hl : db.records.filter (fun r => r.user_id == uid) with
    | nil => exact absurd hl hne
    | cons x xs =>
      constructor
      · simp only [get_stats, hl, List.map_cons, pyMaxD]
        rcases foldl_max_mem (xs.map (fun r => r.weight)) x.weight with h | h
        · rw [h]
          exact List.mem_cons_self _ _
        · exact List.mem_cons_of_mem _ h
      · intro w hw
        simp only [hl, List.map_cons] at hw
        simp only [get_stats, hl, List.map_cons, pyMaxD]
        rcases List.mem_cons.mp hw with rfl | hw
        · exact (le_foldl_max (xs.map (fun r => r.weight)) x.weight).1
        · exact (le_foldl_max (xs.map (fun r => r.weight)) x.weight).2 w hw

/-- Witness for C4 on the stats fixture (dates 2024-01-01 twice and
2024-01-02 once; volumes 100, 50, 200; weights 50, 20, 30): two distinct
workout dates, the volume sum is nonnegative so the result is its floor,
and the reported numbers are 2, 350 and 50. -/
theorem computeStats_correct_witness :
    ((get_stats dbStats 1).total_workouts =
      ((dbStats.records.filter (fun r => r.user_id == 1)).map (fun r => r.date)).toFinset.card) ∧
    ((get_stats dbStats 1).total_volume =
      ⌊((dbStats.records.filter (fun r => r.user_id == 1)).map (fun r => r.volume)).sum⌋) ∧
    (get_stats dbStats 1).total_workouts = 2 ∧
    (get_stats dbStats 1).max_weight = 50 :=
  ⟨(computeStats_correct dbStats 1).1,
   (computeStats_correct dbStats 1).2.1 (by norm_num [dbStats]),
   by decide, by decide⟩

/-! ## C7: registration seeding — six defaults, but in a second commit -/

/-- C7 as stated is refuted on the code: registering `a@example.com` on the
empty store succeeds, yet the trace of committed states contains one — the
state of the first `db.commit()` — in which the new user exists while none
of the six default exercises do.  User creation and seeding are two
separate commits, so "either the user exists with all six exercises or
neither exists" fails at that intermediate committed state. -/
theorem register_seed_not_atomic_counterexample :
    registerCommits emptyDB "a@example.com" "h" =
      .ok [regStep1, seedDefaultExercises regStep1 1] ∧
    (∃ u ∈ regStep1.users, u.email = "a@example.com") ∧
    regStep1.exercises = [] ∧
    ¬ (∀ dbs, registerCommits emptyDB "a@example.com" "h" = .ok dbs →
        ∀ s ∈ dbs,
          ((∃ u ∈ s.users, u.email = "a@example.com") ∧
            (s.exercises.filter (fun e => e.user_id == 1)).length = 6) ∨
          ((∀ u ∈ s.users, u.email ≠ "a@example.com") ∧
            s.exercises.filter (fun e => e.user_id == 1) = [])) := by
  refine ⟨rfl, by decide, rfl, ?_⟩
  intro hAtomic
  have hmid := hAtomic [regStep1, seedDefaultExercises regStep1 1] rfl regStep1
    (List.mem_cons_self _ _)
  rcases hmid with ⟨-, h6⟩ | ⟨hu, -⟩
  · exact absurd h6 (by decide)
  · exact hu { id := 1, email := "a@example.com", hashed_password := "h" }
      (by decide) rfl

/-- C7 (amended): a successful registration creates the user and seeds
exactly six default exercises owned by it, all with `category_id` null —
but in two separate commits rather than atomically: the first committed
state holds the new user row with no new exercises, and only the second
holds the six seeds. -/
theorem register_seeds_six_in_second_commit
    (db : DB) (email hp : String) (h : ∀ u ∈ db.users, u.email ≠ email) :
    ∃ u db2, register db email hp = .ok db2 ∧
      registerCommits db email hp =
        .ok [{ db with users := db.users ++ [u], nextUserId := db.nextUserId + 1 }, db2] ∧
      u.email = email ∧ u.id = db.nextUserId ∧
      db2.users = db.users ++ [u] ∧
      ∃ l, db2.exercises = db.exercises ++ l ∧ l.length = 6 ∧
        l.map (fun e => e.name) = default_exercises ∧
        ∀ e ∈ l, e.user_id = db.nextUserId ∧ e.category_id = none := by
  have hfind : db.users.find? (fun u => u.email == email) = none := by
    refine List.find?_eq_none.mpr (fun u hu => ?_)
    simp only [beq_iff_eq]
    exact h u hu
  refine ⟨{ id := db.nextUserId, email := email, hashed_password := hp }, _,
    (by unfold register; rw [hfind]), (by unfold registerCommits; rw [hfind]),
    rfl, rfl, ?_, ?_⟩
  · rw [seedDefaultExercises_shape]
  · rw [seedDefaultExercises_shape]
    refine ⟨_, rfl, rfl, rfl, ?_⟩
    intro e he
    simp only [List.mem_cons, List.not_mem_nil, or_false] at he
    rcases he with rfl | rfl | rfl | rfl | rfl | rfl <;> exact ⟨rfl, rfl⟩

/-- Witness for the amended C7: registering a fresh email on the two-user
fixture yields the six seeded defaults in the second committed state. -/
theorem register_seeds_six_in_second_commit_witness :
    ∃ u db2, register dbTwoUsers "new@example.com" "h3" = .ok db2 ∧
      registerCommits dbTwoUsers "new@example.com" "h3" =
        .ok [{ dbTwoUsers with
               users := dbTwoUsers.users ++ [u],
               nextUserId := dbTwoUsers.nextUserId + 1 }, db2] ∧
      u.email = "new@example.com" ∧ u.id = dbTwoUsers.nextUserId ∧
      db2.users = dbTwoUsers.users ++ [u] ∧
      ∃ l, db2.exercises = dbTwoUsers.exercises ++ l ∧ l.length = 6 ∧
        l.map (fun e => e.name) = default_exercises ∧
        ∀ e ∈ l, e.user_id = dbTwoUsers.nextUserId ∧ e.category_id = none :=
  register_seeds_six_in_second_commit dbTwoUsers "new@example.com" "h3" (by decide)

/-! ## C9: the exercise-to-category ownership invariant is not enforced -/

lemma updateFirst_mem {α : Type} {p : α → Bool} {f : α → α} {l : List α} {e : α}
    (h : l.find? p = some e) : f e ∈ updateFirst p f l := by
  induction l with
  | nil => cases h
  | cons x xs ih =>
    cases hpx : p x with
    | true =>
      rw [List.find?_cons_of_pos _ hpx] at h
      injection h with h
      subst h
      simp only [updateFirst]
      rw [if_pos hpx]
      exact List.mem_cons_self _ _
    | false =>
      rw [List.find?_cons_of_neg _ (by simp [hpx])] at h
      simp only [updateFirst]
      rw [if_neg (by simp [hpx])]
      exact List.mem_cons_of_mem x (ih h)

/-- C9 as stated is refuted on the code: starting from the empty store,
after two registrations, user 2 creating category 1 and user 1 creating an
exercise linked to category 1, the reached state has an exercise whose
non-null `category_id` references a category owned by a different user —
`create_exercise` does not preserve the invariant. -/
theorem exercise_category_ownership_not_invariant :
    catOwnershipInv (applyOps emptyDB (c9Ops.take 3)) ∧
    ¬ catOwnershipInv (applyOps emptyDB c9Ops) :=
  ⟨by decide, by decide⟩

/-- C9 (amended): the operations that set `category_id` store the requested
value without any existence or ownership check, so the invariant is not
enforced: `create_exercise` always succeeds and stores exactly the given
`category_id`, and `update_exercise` on an owned exercise sets exactly the
given `category_id`, whatever it references. -/
theorem category_link_stored_unchecked
    (db : DB) (uid : Nat) (name : String) (cid : Option Nat) (eid : Nat) :
    (create_exercise db uid name cid).2.category_id = cid ∧
    (create_exercise db uid name cid).2 ∈ (create_exercise db uid name cid).1.exercises ∧
    (∀ db' e', update_exercise db uid eid cid = .ok (db', e') →
      e'.category_id = cid ∧ e' ∈ db'.exercises) := by
  refine ⟨rfl, ?_, ?_⟩
  · simp [create_exercise]
  · intro db' e' h
    obtain ⟨e, hfind, he', hdb⟩ := update_exercise_ok_shape h
    subst he'
    subst hdb
    exact ⟨rfl, updateFirst_mem hfind⟩

/-- Witness for the amended C9: user 1 creates an exercise linked to user
2's category 5, and user 2 relinks exercise 7 to the nonexistent category
99; both values are stored as given. -/
theorem category_link_stored_unchecked_witness :
    (create_exercise dbTwoUsers 1 "Curl" (some 5)).2.category_id = some 5 ∧
    (updExercise7.category_id = some 99 ∧ updExercise7 ∈ updDB.exercises) :=
  ⟨(category_link_stored_unchecked dbTwoUsers 1 "Curl" (some 5) 7).1,
   (category_link_stored_unchecked dbTwoUsers 2 "x" (some 99) 7).2.2
     updDB updExercise7 rfl⟩
